import Mathlib

/-!
Verification of the checkpoint-conversion pipeline in
`mediapipe/model_maker/python/llm/llm_converter.py`.

The executor `quantize_by_actions`, the dispatcher
`combined_weight_bins_to_tflite`, the orchestrator `convert_checkpoint`
and the `ConversionConfig` constructor are embedded from the source.
The quantization primitives (`quantization_util`), the action record
(`converter_base.QuantizationAction`) and the external loader/writer/
generator boundary are not part of the source tree; they are modelled
from the specification, as noted on each such definition.

Tensor values are modelled as matrices of rationals: per-axis (slice)
quantization only ever groups a tensor into the list of its slices along
the chosen axis, so a matrix (axis 0 = rows, any other axis = columns)
captures everything the claims exercise.
-/

namespace LlmConverter

/-- Source-precision tensors, modelled as matrices of rationals. -/
abbrev Tensor := List (List ℚ)

/-- Quantized integer tensors. -/
abbrev QTensor := List (List ℤ)

/-- Values stored in the executor's output mapping: the raw tensor copied
verbatim, a quantized integer tensor, a per-slice scale vector, or a
per-slice zero-point vector. -/
inductive TVal where
  | raw (t : Tensor)
  | quant (q : QTensor)
  | scales (s : List ℚ)
  | zps (z : List ℤ)
deriving DecidableEq, Repr

/-- Modelled from the spec: `converter_base.QuantizationAction` (the module
is not in the source tree).  One per tensor to be written: a destination
key, the tensor value, an optional quantization axis (`none` means "write
the value unmodified") and a bit width. -/
structure QuantizationAction where
  target_name : String
  tensor_value : Tensor
  quantize_axis : Option Nat
  quantize_bits : Nat
deriving DecidableEq, Repr

/-- Python truthiness of the optional `quantize_axis` field: the source
tests `if action.quantize_axis:`, which is false both for `None` and for
the axis index `0`. -/
def axisTruthy : Option Nat → Bool
  | none => false
  | some n => n != 0

/-- Minimum of a slice (0 for an empty slice, which never occurs for the
slices of a nonempty tensor). -/
def sliceMin : List ℚ → ℚ
  | [] => 0
  | x :: xs => xs.foldl min x

/-- Maximum of a slice. -/
def sliceMax : List ℚ → ℚ
  | [] => 0
  | x :: xs => xs.foldl max x

/-- Modelled from the spec: the epsilon substituted for a zero scale on a
degenerate slice.  The spec leaves the exact value unspecified; any fixed
positive rational works. -/
def eps : ℚ := 1 / 1000000

/-- Round half away from zero, one of the two rounding modes the spec
allows (the implementation must just pick one consistently). -/
def roundAway (q : ℚ) : ℤ :=
  if 0 ≤ q then ⌊q + 1 / 2⌋ else -⌊-q + 1 / 2⌋

/-- Clamp an integer into `[lo, hi]`. -/
def clampI (lo hi v : ℤ) : ℤ := max lo (min hi v)

/-- Per-slice symmetric scale: `max(|min|, |max|) / (2^(bits-1) - 1)`,
with the epsilon substitution on a degenerate (all-zero) slice. -/
def symScale (bits : Nat) (s : List ℚ) : ℚ :=
  let m := max |sliceMin s| |sliceMax s|
  let sc := m / ((2 : ℚ) ^ (bits - 1) - 1)
  if sc = 0 then eps else sc

/-- Per-slice symmetric quantization: signed values clamped to
`[-(2^(bits-1)-1), 2^(bits-1)-1]`. -/
def symQuantSlice (bits : Nat) (s : List ℚ) : List ℤ :=
  let sc := symScale bits s
  let hi : ℤ := 2 ^ (bits - 1) - 1
  s.map (fun v => clampI (-hi) hi (roundAway (v / sc)))

/-- Per-slice asymmetric scale: `(max - min) / (2^bits - 1)`, with the
epsilon substitution on a degenerate slice. -/
def asymScale (bits : Nat) (s : List ℚ) : ℚ :=
  let sc := (sliceMax s - sliceMin s) / ((2 : ℚ) ^ bits - 1)
  if sc = 0 then eps else sc

/-- Per-slice asymmetric zero point: `round(-min/scale)` clamped to
`[0, 2^bits - 1]`. -/
def asymZp (bits : Nat) (s : List ℚ) : ℤ :=
  clampI 0 (2 ^ bits - 1) (roundAway (-(sliceMin s) / asymScale bits s))

/-- Per-slice asymmetric quantization: unsigned values clamped to
`[0, 2^bits - 1]`. -/
def asymQuantSlice (bits : Nat) (s : List ℚ) : List ℤ :=
  let sc := asymScale bits s
  let zp := asymZp bits s
  s.map (fun v => clampI 0 (2 ^ bits - 1) (roundAway (v / sc) + zp))

/-- Columns of a rectangular matrix (the transpose), written with plain
structural recursion; `dflt` pads a ragged row and never fires on the
rectangular tensors an action carries. -/
def columns (dflt : α) (t : List (List α)) : List (List α) :=
  match t with
  | [] => []
  | r :: _ => (List.range r.length).map (fun i => t.map (fun row => row.getD i dflt))

/-- View a matrix as the list of its slices along an axis: axis 0 slices
are the rows, any other axis slices are the columns. -/
def toSlices (axis : Nat) (t : Tensor) : List (List ℚ) :=
  if axis = 0 then t else columns 0 t

/-- Reassemble a quantized matrix from its per-slice quantized values. -/
def fromSlices (axis : Nat) (q : QTensor) : QTensor :=
  if axis = 0 then q else columns 0 q

/-- Modelled from the spec: `quantization_util.quantize_tensor` in
symmetric mode (the module is not in the source tree).  Returns the
quantized tensor and one independent scale per index along `axis`. -/
def quantize_tensor_sym (var : Tensor) (axis : Nat) (number_bits : Nat) :
    QTensor × List ℚ :=
  let sl := toSlices axis var
  (fromSlices axis (sl.map (symQuantSlice number_bits)),
   sl.map (symScale number_bits))

/-- Modelled from the spec: `quantization_util.quantize_tensor` in
asymmetric mode.  Returns the quantized tensor, one scale and one
zero point per index along `axis`. -/
def quantize_tensor_asym (var : Tensor) (axis : Nat) (number_bits : Nat) :
    QTensor × List ℚ × List ℤ :=
  let sl := toSlices axis var
  (fromSlices axis (sl.map (asymQuantSlice number_bits)),
   sl.map (asymScale number_bits),
   sl.map (asymZp number_bits))

/-- Modelled from the spec: `quantization_util.update_to_uint4` — remaps a
signed 4-bit representation to unsigned by adding 8 to the quantized
values and to the zero points, leaving the scale unchanged. -/
def update_to_uint4 (q : QTensor) (scale : List ℚ) (zp : List ℤ) :
    QTensor × List ℚ × List ℤ :=
  (q.map (fun r => r.map (· + 8)), scale, zp.map (· + 8))

/-- One entry of the executor's output mapping: a value together with its
`needs_packing` flag. -/
abbrev Entry := TVal × Bool

/-- The executor's output mapping.  A Python `dict` is modelled as an
association list with Python's update semantics: assigning to an existing
key overwrites its value in place, assigning to a fresh key appends. -/
abbrev OutDict := List (String × Entry)

/-- Python `d[k] = v`: overwrite in place if `k` is present, else append. -/
def dictInsert (k : String) (v : Entry) : OutDict → OutDict
  | [] => [(k, v)]
  | (k', v') :: rest =>
      if k' = k then (k, v) :: rest else (k', v') :: dictInsert k v rest

/-- Python `d.get(k)`. -/
def dictLookup (k : String) : OutDict → Option Entry
  | [] => none
  | (k', v) :: rest => if k' = k then some v else dictLookup k rest

/-- One iteration of the executor loop of `quantize_by_actions`
(llm_converter.py lines 97-124), translated clause by clause from the
source: the branch condition is the Python truthiness of
`action.quantize_axis`; `pack` is `quantize_bits == 4`; in the asymmetric
branch `update_to_uint4` is applied when the backend is `"xnnpack"` and
the bit width is 4. -/
def quantizeStep (backend : String) (is_symmetric : Bool)
    (output_tensors : OutDict) (action : QuantizationAction) : OutDict :=
  if axisTruthy action.quantize_axis then
    let axis := action.quantize_axis.getD 0
    let pack := action.quantize_bits == 4
    if is_symmetric then
      let r := quantize_tensor_sym action.tensor_value axis action.quantize_bits
      dictInsert (action.target_name ++ "_quantized_scale") (TVal.scales r.2, false)
        (dictInsert action.target_name (TVal.quant r.1, pack) output_tensors)
    else
      let r := quantize_tensor_asym action.tensor_value axis action.quantize_bits
      let r2 := if backend = "xnnpack" ∧ action.quantize_bits = 4 then
          update_to_uint4 r.1 r.2.1 r.2.2
        else r
      dictInsert (action.target_name ++ "_quantized_zp") (TVal.zps r2.2.2, false)
        (dictInsert (action.target_name ++ "_quantized_scale") (TVal.scales r2.2.1, false)
          (dictInsert action.target_name (TVal.quant r2.1, pack) output_tensors))
  else
    dictInsert action.target_name (TVal.raw action.tensor_value, false) output_tensors

/-- The executor `quantize_by_actions` (llm_converter.py lines 77-125):
fold the per-action step over the action list, starting from the empty
output mapping. -/
def quantize_by_actions (actions : List QuantizationAction) (backend : String)
    (is_symmetric : Bool) : OutDict :=
  actions.foldl (quantizeStep backend is_symmetric) []

/-- Observable external calls of the orchestrator.  The loader, writer,
artifact generator and directory creation are external collaborators
(modelled from the spec); the orchestrator is embedded as the trace of
boundary calls it makes, in order. -/
inductive Effect where
  | makedirs (path : String)
  | createLoader (ckpt_format : String)
  | loadToActions
  | executeQuantize (tensors : OutDict)
  | createWriter (output_dir backend : String)
  | writeVariables (tensors : OutDict)
  | generateXnnpackTfLite (model_type weight_path vocab_model_file : String)
      (embed_vocab : Bool) (output_tflite_file : String)
  | generateMlDriftTfLite (model_type weight_path vocab_model_file : String)
      (embed_vocab : Bool) (output_tflite_file : String)
deriving DecidableEq, Repr

/-- The conversion configuration record, after successful construction
(llm_converter.py lines 14-74). -/
structure ConversionConfig where
  input_ckpt : String
  ckpt_format : String
  model_type : String
  backend : String
  output_dir : String
  is_symmetric : Bool
  attention_quant_bits : Nat
  feedforward_quant_bits : Nat
  embedding_quant_bits : Nat
  combine_file_only : Bool
  vocab_model_file : String
  output_tflite_file : String
deriving DecidableEq, Repr

/-- Modelled from the spec: the state of the filesystem as the two
predicates `os.path.isfile` / `os.path.isdir` consulted by the
constructor. -/
structure FileSystem where
  is_file : String → Bool
  is_dir : String → Bool

/-- Everything of `os.path.dirname` that the constructor needs: the part
of the path before the last separator (empty when there is none). -/
def dirname (p : String) : String :=
  let parts := p.splitOn "/"
  if parts.length ≤ 1 then "" else String.intercalate "/" parts.dropLast

/-- The `ConversionConfig` constructor (llm_converter.py lines 36-74):
record the first four fields, fail if `output_dir` is an existing file,
create `output_dir` if it is not a directory, and resolve
`output_tflite_file` (Python default `None` is modelled as the likewise
falsy empty string) to the given path, creating its parent directory if
missing, or to `output_dir/model.tflite`.  Returns the constructed config
and the directory-creation effects, or the `ValueError` message. -/
def mkConversionConfig (fs : FileSystem) (input_ckpt ckpt_format model_type
    backend output_dir : String) (is_symmetric : Bool)
    (attention_quant_bits feedforward_quant_bits embedding_quant_bits : Nat)
    (combine_file_only : Bool) (vocab_model_file output_tflite_file : String) :
    Except String (ConversionConfig × List Effect) :=
  if fs.is_file output_dir then
    .error "Output directory mush not point to an existing file."
  else
    let dirEffects := if fs.is_dir output_dir then [] else [Effect.makedirs output_dir]
    if output_tflite_file = "" then
      .ok ({ input_ckpt := input_ckpt, ckpt_format := ckpt_format,
             model_type := model_type, backend := backend,
             output_dir := output_dir, is_symmetric := is_symmetric,
             attention_quant_bits := attention_quant_bits,
             feedforward_quant_bits := feedforward_quant_bits,
             embedding_quant_bits := embedding_quant_bits,
             combine_file_only := combine_file_only,
             vocab_model_file := vocab_model_file,
             output_tflite_file := output_dir ++ "/model.tflite" },
           dirEffects)
    else
      let parent := dirname output_tflite_file
      .ok ({ input_ckpt := input_ckpt, ckpt_format := ckpt_format,
             model_type := model_type, backend := backend,
             output_dir := output_dir, is_symmetric := is_symmetric,
             attention_quant_bits := attention_quant_bits,
             feedforward_quant_bits := feedforward_quant_bits,
             embedding_quant_bits := embedding_quant_bits,
             combine_file_only := combine_file_only,
             vocab_model_file := vocab_model_file,
             output_tflite_file := output_tflite_file },
           dirEffects ++ (if fs.is_dir parent then [] else [Effect.makedirs parent]))

/-- The artifact-generation dispatch `combined_weight_bins_to_tflite`
(llm_converter.py lines 128-154): `"xnnpack"` and `"ml_drift"` map to the
two generator entry points, anything else raises
`ValueError('Unsupported backend: ...')`. -/
def combined_weight_bins_to_tflite (model_type backend weight_path
    output_tflite_file vocab_model_file : String) :
    Except String (List Effect) :=
  if backend = "xnnpack" then
    .ok [Effect.generateXnnpackTfLite model_type weight_path vocab_model_file
          true output_tflite_file]
  else if backend = "ml_drift" then
    .ok [Effect.generateMlDriftTfLite model_type weight_path vocab_model_file
          true output_tflite_file]
  else
    .error ("Unsupported backend: " ++ backend)

/-- The orchestrator `convert_checkpoint` (llm_converter.py lines
157-194).  The external loader's output is not in the source tree, so the
action list it would return is a parameter (modelled from the spec:
External Loader).  Returns the trace of boundary calls made before
completion or failure, and the outcome. -/
def convert_checkpoint (config : ConversionConfig)
    (loaded_actions : List QuantizationAction) :
    List Effect × Except String Unit :=
  let pre : List Effect :=
    if config.combine_file_only then []
    else
      [Effect.createLoader config.ckpt_format, Effect.loadToActions,
       Effect.executeQuantize
         (quantize_by_actions loaded_actions config.backend config.is_symmetric),
       Effect.createWriter config.output_dir config.backend,
       Effect.writeVariables
         (quantize_by_actions loaded_actions config.backend config.is_symmetric)]
  match combined_weight_bins_to_tflite config.model_type config.backend
      config.output_dir config.output_tflite_file config.vocab_model_file with
  | .ok gen => (pre ++ gen, .ok ())
  | .error e => (pre, .error e)

/-!  Helper lemmas shared by the claim theorems. -/

/-- A target name never collides with its own scale key. -/
lemma ne_scaleKey (t : String) : t ≠ t ++ "_quantized_scale" := by
  intro hEq
  have hL := congrArg String.length hEq
  rw [String.length_append] at hL
  have h16 : ("_quantized_scale" : String).length = 16 := rfl
  omega

/-- A target name never collides with its own zero-point key. -/
lemma ne_zpKey (t : String) : t ≠ t ++ "_quantized_zp" := by
  intro hEq
  have hL := congrArg String.length hEq
  rw [String.length_append] at hL
  have h13 : ("_quantized_zp" : String).length = 13 := rfl
  omega

/-- The scale key and the zero-point key of one target never collide. -/
lemma scaleKey_ne_zpKey (t : String) :
    t ++ "_quantized_scale" ≠ t ++ "_quantized_zp" := by
  intro hEq
  have hL := congrArg String.length hEq
  rw [String.length_append, String.length_append] at hL
  have h16 : ("_quantized_scale" : String).length = 16 := rfl
  have h13 : ("_quantized_zp" : String).length = 13 := rfl
  omega

/-- Looking up a key just inserted returns the inserted value. -/
lemma dictLookup_dictInsert_self (k : String) (v : Entry) (d : OutDict) :
    dictLookup k (dictInsert k v d) = some v := by
  induction d with
  | nil => simp [dictInsert, dictLookup]
  | cons p rest ih =>
      by_cases hk : p.1 = k
      · simp [dictInsert, dictLookup, hk]
      · simp [dictInsert, dictLookup, hk, ih]

/-- Inserting under a different key does not change a lookup. -/
lemma dictLookup_dictInsert_ne {k k' : String} (h : k' ≠ k) (v : Entry)
    (d : OutDict) : dictLookup k (dictInsert k' v d) = dictLookup k d := by
  induction d with
  | nil => simp [dictInsert, dictLookup, h]
  | cons p rest ih =>
      by_cases hk : p.1 = k'
      · simp [dictInsert, dictLookup, hk, h]
      · simp only [dictInsert, dictLookup, if_neg hk]
        by_cases hp : p.1 = k
        · simp [dictLookup, hp]
        · simp [dictLookup, hp, ih]

/-- Shape of the executor's output on a single symmetric-run action whose
axis is truthy: base entry followed by the scale entry. -/
lemma quantize_single_sym (a : QuantizationAction) (backend : String)
    (h : axisTruthy a.quantize_axis = true) :
    quantize_by_actions [a] backend true =
      [(a.target_name,
        (TVal.quant (quantize_tensor_sym a.tensor_value
           (a.quantize_axis.getD 0) a.quantize_bits).1, a.quantize_bits == 4)),
       (a.target_name ++ "_quantized_scale",
        (TVal.scales (quantize_tensor_sym a.tensor_value
           (a.quantize_axis.getD 0) a.quantize_bits).2, false))] := by
  simp only [quantize_by_actions, List.foldl_cons, List.foldl_nil,
    quantizeStep, h, if_true, dictInsert]
  rw [if_neg (ne_scaleKey a.target_name)]

/-- Shape of the executor's output on a single asymmetric-run action whose
axis is truthy: base, scale and zero-point entries, with the uint4
adapter applied exactly on the xnnpack 4-bit combination. -/
lemma quantize_single_asym (a : QuantizationAction) (backend : String)
    (h : axisTruthy a.quantize_axis = true) :
    quantize_by_actions [a] backend false =
      (let r := quantize_tensor_asym a.tensor_value
          (a.quantize_axis.getD 0) a.quantize_bits
       let r2 := if backend = "xnnpack" ∧ a.quantize_bits = 4 then
           update_to_uint4 r.1 r.2.1 r.2.2
         else r
       [(a.target_name, (TVal.quant r2.1, a.quantize_bits == 4)),
        (a.target_name ++ "_quantized_scale", (TVal.scales r2.2.1, false)),
        (a.target_name ++ "_quantized_zp", (TVal.zps r2.2.2, false))]) := by
  simp [quantize_by_actions, quantizeStep, h, dictInsert,
    ne_scaleKey, ne_zpKey, scaleKey_ne_zpKey]

/-- The executor's base entry for an action is looked up independently of
what was already in the output mapping: the step inserts it under the
action's own `target_name`, and the scale/zero-point keys cannot shadow
it. -/
lemma dictLookup_quantizeStep_self (backend : String) (is_symmetric : Bool)
    (d : OutDict) (x : QuantizationAction) :
    dictLookup x.target_name (quantizeStep backend is_symmetric d x)
      = dictLookup x.target_name (quantizeStep backend is_symmetric [] x) := by
  have h1 := (ne_zpKey x.target_name).symm
  have h2 := (ne_scaleKey x.target_name).symm
  cases hax : axisTruthy x.quantize_axis <;> cases is_symmetric <;>
    simp [quantizeStep, hax, dictLookup_dictInsert_self,
      dictLookup_dictInsert_ne h1, dictLookup_dictInsert_ne h2]

/-- On a symmetric run a single executor step never consults the backend
tag: the backend parameter only occurs in the asymmetric branch. -/
lemma quantizeStep_sym_backend_irrel (b1 b2 : String) (d : OutDict)
    (a : QuantizationAction) :
    quantizeStep b1 true d a = quantizeStep b2 true d a := by
  cases hax : axisTruthy a.quantize_axis <;> simp [quantizeStep, hax]

/-- Folding the symmetric-run step over any action list is independent of
the backend tag, from any starting output mapping. -/
lemma foldl_sym_backend_irrel (b1 b2 : String) (l : List QuantizationAction)
    (d : OutDict) :
    l.foldl (quantizeStep b1 true) d = l.foldl (quantizeStep b2 true) d := by
  induction l generalizing d with
  | nil => rfl
  | cons x xs ih =>
      simp only [List.foldl_cons]
      rw [quantizeStep_sym_backend_irrel b1 b2 d x]
      exact ih _

/-!  Claim theorems. -/

/-- C1: the spec's end-to-end scenario expects a single action named "w"
with a 4-row tensor, `quantize_axis = 0`, `quantize_bits = 8`, symmetric,
backend "xnnpack" to produce the keys "w" and "w_quantized_scale" with
four per-row scales.  The source instead tests the Python truthiness of
`quantize_axis` (line 98), so axis 0 falls into the unquantized branch:
evaluating the executor at exactly the claim's input yields only the key
"w" carrying the raw tensor, with no scale entry and no quantization. -/
theorem c1_axis0_scenario_actual_output :
    quantize_by_actions [⟨"w", [[1], [2], [3], [4]], some 0, 8⟩] "xnnpack" true
      = [("w", (TVal.raw [[1], [2], [3], [4]], false))] := by decide

/-- C2: an action whose `quantize_axis` equals 0 is treated exactly like
one with `quantize_axis = None`: the executor emits exactly one entry,
the raw tensor under `target_name` with `needs_packing = false`, and no
scale or zero-point entry, for every bit width, symmetry flag, backend
and prior output state, because the source branches on the Python
truthiness of `quantize_axis`, not on its presence. -/
theorem c2_axis_zero_treated_as_none (a : QuantizationAction)
    (backend : String) (is_symmetric : Bool) (d : OutDict)
    (h : a.quantize_axis = some 0) :
    quantizeStep backend is_symmetric d a
      = dictInsert a.target_name (TVal.raw a.tensor_value, false) d ∧
    quantizeStep backend is_symmetric d a
      = quantizeStep backend is_symmetric d { a with quantize_axis := none } := by
  constructor <;> simp [quantizeStep, axisTruthy, h]

theorem c2_witness :
    (⟨"w", [[(1 : ℚ), 2]], some 0, 4⟩ : QuantizationAction).quantize_axis
        = some 0 ∧
    (quantizeStep "xnnpack" false [] ⟨"w", [[(1 : ℚ), 2]], some 0, 4⟩
        = dictInsert "w" (TVal.raw [[(1 : ℚ), 2]], false) [] ∧
     quantizeStep "xnnpack" false [] ⟨"w", [[(1 : ℚ), 2]], some 0, 4⟩
        = quantizeStep "xnnpack" false [] ⟨"w", [[(1 : ℚ), 2]], none, 4⟩) :=
  ⟨rfl, c2_axis_zero_treated_as_none ⟨"w", [[(1 : ℚ), 2]], some 0, 4⟩
    "xnnpack" false [] rfl⟩

/-- C8: for every action with `quantize_axis` unset, the executor adds
exactly one entry: the input tensor verbatim under `target_name` with
`needs_packing = false`, and no quantization metadata. -/
theorem c8_axis_none_verbatim (a : QuantizationAction) (backend : String)
    (is_symmetric : Bool) (h : a.quantize_axis = none) :
    quantize_by_actions [a] backend is_symmetric
      = [(a.target_name, (TVal.raw a.tensor_value, false))] := by
  simp [quantize_by_actions, quantizeStep, axisTruthy, h, dictInsert]

theorem c8_witness :
    (⟨"w", [[(3 : ℚ), 4]], none, 8⟩ : QuantizationAction).quantize_axis
        = none ∧
    quantize_by_actions [⟨"w", [[(3 : ℚ), 4]], none, 8⟩] "ml_drift" true
      = [("w", (TVal.raw [[(3 : ℚ), 4]], false))] :=
  ⟨rfl, c8_axis_none_verbatim ⟨"w", [[(3 : ℚ), 4]], none, 8⟩ "ml_drift" true rfl⟩

/-- C10: on a symmetric run the executor's output is identical for every
backend tag: the backend parameter is consulted only on the asymmetric
path, so any two backends yield the same output mapping on any action
list. -/
theorem c10_backend_irrelevant_when_symmetric
    (actions : List QuantizationAction) (b1 b2 : String) :
    quantize_by_actions actions b1 true = quantize_by_actions actions b2 true :=
  foldl_sym_backend_irrel b1 b2 actions []

/-- C3: for every action the executor actually quantizes, the output
mapping contains exactly one scale entry under
`target_name ++ "_quantized_scale"` with `needs_packing = false`, and it
contains a zero-point entry under `target_name ++ "_quantized_zp"` if and
only if the run's symmetry flag is false. -/
theorem c3_scale_once_zp_iff_asym (a : QuantizationAction) (backend : String)
    (is_symmetric : Bool) (h : axisTruthy a.quantize_axis = true) :
    ((quantize_by_actions [a] backend is_symmetric).countP
        (fun p => p.1 == a.target_name ++ "_quantized_scale") = 1) ∧
    (∀ e, dictLookup (a.target_name ++ "_quantized_scale")
        (quantize_by_actions [a] backend is_symmetric) = some e →
      e.2 = false) ∧
    ((quantize_by_actions [a] backend is_symmetric).countP
        (fun p => p.1 == a.target_name ++ "_quantized_zp")
      = if is_symmetric then 0 else 1) := by
  have hzs := Ne.symm (scaleKey_ne_zpKey a.target_name)
  cases is_symmetric with
  | false =>
      rw [quantize_single_asym a backend h]
      refine ⟨?_, ?_, ?_⟩ <;>
        simp [List.countP_cons, List.countP_nil, dictLookup,
          ne_scaleKey, ne_zpKey, scaleKey_ne_zpKey, hzs]
  | true =>
      rw [quantize_single_sym a backend h]
      refine ⟨?_, ?_, ?_⟩ <;>
        simp [List.countP_cons, List.countP_nil, dictLookup,
          ne_scaleKey, ne_zpKey, scaleKey_ne_zpKey, hzs]

theorem c3_witness :
    axisTruthy (⟨"w", [[(1 : ℚ), 2], [3, 4]], some 1, 8⟩ :
        QuantizationAction).quantize_axis = true ∧
    (((quantize_by_actions [⟨"w", [[(1 : ℚ), 2], [3, 4]], some 1, 8⟩]
          "ml_drift" true).countP
        (fun p => p.1 == "w" ++ "_quantized_scale") = 1) ∧
     (∀ e, dictLookup ("w" ++ "_quantized_scale")
         (quantize_by_actions [⟨"w", [[(1 : ℚ), 2], [3, 4]], some 1, 8⟩]
           "ml_drift" true) = some e → e.2 = false) ∧
     ((quantize_by_actions [⟨"w", [[(1 : ℚ), 2], [3, 4]], some 1, 8⟩]
          "ml_drift" true).countP
        (fun p => p.1 == "w" ++ "_quantized_zp")
      = if (true : Bool) then 0 else 1)) :=
  ⟨rfl, c3_scale_once_zp_iff_asym ⟨"w", [[(1 : ℚ), 2], [3, 4]], some 1, 8⟩
    "ml_drift" true rfl⟩

/-- C4: the adapter `update_to_uint4` is applied to the quantized triple
exactly when the backend is "xnnpack", the run is asymmetric and
`quantize_bits = 4`; for every other combination of backend, bit width
and symmetry the primitive's result is emitted unchanged. -/
theorem c4_uint4_adapter_iff (a : QuantizationAction) (backend : String)
    (is_symmetric : Bool) (h : axisTruthy a.quantize_axis = true) :
    quantize_by_actions [a] backend is_symmetric =
      if is_symmetric then
        [(a.target_name,
          (TVal.quant (quantize_tensor_sym a.tensor_value
             (a.quantize_axis.getD 0) a.quantize_bits).1, a.quantize_bits == 4)),
         (a.target_name ++ "_quantized_scale",
          (TVal.scales (quantize_tensor_sym a.tensor_value
             (a.quantize_axis.getD 0) a.quantize_bits).2, false))]
      else
        (let r := quantize_tensor_asym a.tensor_value
            (a.quantize_axis.getD 0) a.quantize_bits
         let r2 := if backend = "xnnpack" ∧ a.quantize_bits = 4 then
             update_to_uint4 r.1 r.2.1 r.2.2
           else r
         [(a.target_name, (TVal.quant r2.1, a.quantize_bits == 4)),
          (a.target_name ++ "_quantized_scale", (TVal.scales r2.2.1, false)),
          (a.target_name ++ "_quantized_zp", (TVal.zps r2.2.2, false))]) := by
  cases is_symmetric with
  | false => rw [quantize_single_asym a backend h]; simp
  | true => rw [quantize_single_sym a backend h]; simp

theorem c4_witness :
    axisTruthy (⟨"w", [[(1 : ℚ), 2], [3, 4]], some 1, 4⟩ :
        QuantizationAction).quantize_axis = true ∧
    quantize_by_actions [⟨"w", [[(1 : ℚ), 2], [3, 4]], some 1, 4⟩]
        "xnnpack" false
      = (let r := quantize_tensor_asym [[(1 : ℚ), 2], [3, 4]] 1 4
         let r2 := if ("xnnpack" : String) = "xnnpack" ∧ (4 : ℕ) = 4 then
             update_to_uint4 r.1 r.2.1 r.2.2
           else r
         [("w", (TVal.quant r2.1, (4 : ℕ) == 4)),
          ("w" ++ "_quantized_scale", (TVal.scales r2.2.1, false)),
          ("w" ++ "_quantized_zp", (TVal.zps r2.2.2, false))]) :=
  ⟨rfl, c4_uint4_adapter_iff ⟨"w", [[(1 : ℚ), 2], [3, 4]], some 1, 4⟩
    "xnnpack" false rfl⟩

/-- C9: for every action the executor quantizes, the base entry's
`needs_packing` flag is true if and only if the action's `quantize_bits`
equals 4, and the scale and zero-point entries always carry
`needs_packing = false`. -/
theorem c9_needs_packing_iff_4bit (a : QuantizationAction) (backend : String)
    (is_symmetric : Bool) (h : axisTruthy a.quantize_axis = true) :
    ((quantize_by_actions [a] backend is_symmetric).countP
        (fun p => p.1 == a.target_name) = 1) ∧
    (∀ e, dictLookup a.target_name (quantize_by_actions [a] backend is_symmetric)
        = some e → e.2 = (a.quantize_bits == 4)) ∧
    (∀ e, dictLookup (a.target_name ++ "_quantized_scale")
        (quantize_by_actions [a] backend is_symmetric) = some e → e.2 = false) ∧
    (∀ e, dictLookup (a.target_name ++ "_quantized_zp")
        (quantize_by_actions [a] backend is_symmetric) = some e → e.2 = false) := by
  have hs := Ne.symm (ne_scaleKey a.target_name)
  have hz := Ne.symm (ne_zpKey a.target_name)
  have hzs := Ne.symm (scaleKey_ne_zpKey a.target_name)
  cases is_symmetric with
  | false =>
      rw [quantize_single_asym a backend h]
      refine ⟨?_, ?_, ?_, ?_⟩ <;>
        simp [List.countP_cons, List.countP_nil, dictLookup,
          ne_scaleKey, ne_zpKey, scaleKey_ne_zpKey, hs, hz, hzs]
  | true =>
      rw [quantize_single_sym a backend h]
      refine ⟨?_, ?_, ?_, ?_⟩ <;>
        simp [List.countP_cons, List.countP_nil, dictLookup,
          ne_scaleKey, ne_zpKey, scaleKey_ne_zpKey, hs, hz, hzs]

theorem c9_witness :
    axisTruthy (⟨"w", [[(1 : ℚ), 2], [3, 4]], some 1, 4⟩ :
        QuantizationAction).quantize_axis = true ∧
    (((quantize_by_actions [⟨"w", [[(1 : ℚ), 2], [3, 4]], some 1, 4⟩]
          "ml_drift" true).countP (fun p => p.1 == "w") = 1) ∧
     (∀ e, dictLookup "w"
         (quantize_by_actions [⟨"w", [[(1 : ℚ), 2], [3, 4]], some 1, 4⟩]
           "ml_drift" true) = some e → e.2 = (4 == 4)) ∧
     (∀ e, dictLookup ("w" ++ "_quantized_scale")
         (quantize_by_actions [⟨"w", [[(1 : ℚ), 2], [3, 4]], some 1, 4⟩]
           "ml_drift" true) = some e → e.2 = false) ∧
     (∀ e, dictLookup ("w" ++ "_quantized_zp")
         (quantize_by_actions [⟨"w", [[(1 : ℚ), 2], [3, 4]], some 1, 4⟩]
           "ml_drift" true) = some e → e.2 = false)) :=
  ⟨rfl, c9_needs_packing_iff_4bit ⟨"w", [[(1 : ℚ), 2], [3, 4]], some 1, 4⟩
    "ml_drift" true rfl⟩

/-- C5: a conversion run with `combine_file_only = true` and a backend tag
outside xnnpack and ml_drift fails at the artifact-generation dispatch with
the descriptive `Unsupported backend` error, and its boundary-call trace is
empty: no loader, executor, or writer was invoked. -/
theorem c5_combine_only_unsupported_backend (config : ConversionConfig)
    (loaded_actions : List QuantizationAction)
    (h1 : config.combine_file_only = true)
    (h2 : config.backend ≠ "xnnpack") (h3 : config.backend ≠ "ml_drift") :
    convert_checkpoint config loaded_actions
      = ([], Except.error ("Unsupported backend: " ++ config.backend)) := by
  simp [convert_checkpoint, combined_weight_bins_to_tflite, h1, h2, h3]

theorem c5_witness :
    ((⟨"ckpt", "safetensors", "GEMMA_2B", "unsupported", "out", true, 8, 8, 8,
        true, "", "out/model.tflite"⟩ :
      ConversionConfig).combine_file_only = true ∧
     (⟨"ckpt", "safetensors", "GEMMA_2B", "unsupported", "out", true, 8, 8, 8,
        true, "", "out/model.tflite"⟩ :
      ConversionConfig).backend ≠ "xnnpack" ∧
     (⟨"ckpt", "safetensors", "GEMMA_2B", "unsupported", "out", true, 8, 8, 8,
        true, "", "out/model.tflite"⟩ :
      ConversionConfig).backend ≠ "ml_drift") ∧
    convert_checkpoint
        ⟨"ckpt", "safetensors", "GEMMA_2B", "unsupported", "out", true, 8, 8, 8,
          true, "", "out/model.tflite"⟩ []
      = ([], Except.error ("Unsupported backend: " ++ "unsupported")) :=
  ⟨⟨rfl, by decide, by decide⟩,
   c5_combine_only_unsupported_backend
     ⟨"ckpt", "safetensors", "GEMMA_2B", "unsupported", "out", true, 8, 8, 8,
       true, "", "out/model.tflite"⟩ [] rfl (by decide) (by decide)⟩

/-- C6: constructing a `ConversionConfig` whose `output_dir` points to an
existing regular file fails with the configuration error at construction
time: the constructor returns the `ValueError` message (so no config
exists, no directory is created, and no loader, executor, writer or
generator can be invoked). -/
theorem c6_output_dir_existing_file (fs : FileSystem)
    (input_ckpt ckpt_format model_type backend output_dir : String)
    (is_symmetric : Bool)
    (attention_quant_bits feedforward_quant_bits embedding_quant_bits : Nat)
    (combine_file_only : Bool) (vocab_model_file output_tflite_file : String)
    (h : fs.is_file output_dir = true) :
    mkConversionConfig fs input_ckpt ckpt_format model_type backend output_dir
        is_symmetric attention_quant_bits feedforward_quant_bits
        embedding_quant_bits combine_file_only vocab_model_file
        output_tflite_file
      = Except.error "Output directory mush not point to an existing file." := by
  simp [mkConversionConfig, h]

theorem c6_witness :
    (FileSystem.mk (fun _ => true) (fun _ => false)).is_file "out" = true ∧
    mkConversionConfig (FileSystem.mk (fun _ => true) (fun _ => false))
        "ckpt" "safetensors" "GEMMA_2B" "xnnpack" "out" true 8 8 8 false "" ""
      = Except.error "Output directory mush not point to an existing file." :=
  ⟨rfl, c6_output_dir_existing_file
    (FileSystem.mk (fun _ => true) (fun _ => false))
    "ckpt" "safetensors" "GEMMA_2B" "xnnpack" "out" true 8 8 8 false "" "" rfl⟩

/-- C7 counterexample: the claim says the executor detects two actions
with the same `target_name` and rejects the list with an error.  The
executor has no error path at all: at the concrete duplicate input below
it returns normally, and the single surviving entry under "w" is the
second action's value — the first was silently overwritten. -/
theorem c7_counterexample :
    quantize_by_actions
        [⟨"w", [[1]], none, 8⟩, ⟨"w", [[2]], none, 8⟩] "xnnpack" true
      = [("w", (TVal.raw [[2]], false))] := by decide

/-- C7 amended: the executor does not detect duplicate `target_name`
values; entries are written into the output mapping with dictionary
update semantics, so for two actions sharing a `target_name` the later
action's entry under that name is exactly what it alone would have
produced — the later entry silently wins. -/
theorem c7_last_duplicate_wins (a b : QuantizationAction) (backend : String)
    (is_symmetric : Bool) (h : a.target_name = b.target_name) :
    dictLookup b.target_name (quantize_by_actions [a, b] backend is_symmetric)
      = dictLookup b.target_name (quantize_by_actions [b] backend is_symmetric) := by
  simp only [quantize_by_actions, List.foldl_cons, List.foldl_nil]
  exact dictLookup_quantizeStep_self backend is_symmetric
    (quantizeStep backend is_symmetric [] a) b

theorem c7_amended_witness :
    (⟨"w", [[(1 : ℚ)]], none, 8⟩ : QuantizationAction).target_name
      = (⟨"w", [[(2 : ℚ)]], none, 8⟩ : QuantizationAction).target_name ∧
    dictLookup "w"
        (quantize_by_actions
          [⟨"w", [[(1 : ℚ)]], none, 8⟩, ⟨"w", [[(2 : ℚ)]], none, 8⟩]
          "xnnpack" true)
      = dictLookup "w"
          (quantize_by_actions [⟨"w", [[(2 : ℚ)]], none, 8⟩] "xnnpack" true) :=
  ⟨rfl, c7_last_duplicate_wins ⟨"w", [[(1 : ℚ)]], none, 8⟩
    ⟨"w", [[(2 : ℚ)]], none, 8⟩ "xnnpack" true rfl⟩

end LlmConverter
